import Mathlib

/-!
Shallow embedding of the scheduled multi-platform publishing subsystem of
the seosocialapp backend, translated from:

* backend/models/SocialMediaPost.js        (schema, pre-save middleware)
* backend/services/socialMediaService.js   (platform registry, postToPlatform)
* backend/services/schedulerService.js     (scheduler loop, job processor,
                                            schedule/cancel/status/stats)
* backend/routes/scheduler.js              (request validation)
* backend/controllers/schedulerController.js (createScheduledJob, cancel)

Ids and user ids are Nat, instants are Int (milliseconds); the remote
behaviour of the six platform services is a parameter (SocialEnv).
-/

/-- Engagement counters of one per-platform result
    (SocialMediaPost.js, postResults.engagement: five Number fields, each
    defaulting to 0). -/
structure Engagement where
  likes : Nat := 0
  comments : Nat := 0
  shares : Nat := 0
  views : Nat := 0
  clicks : Nat := 0
deriving DecidableEq, Repr

/-- One entry of Post.postResults (SocialMediaPost.js lines 66-88). -/
structure PostResult where
  platform : String
  postId : Option String := none
  url : Option String := none
  publishedAt : Option Int := none
  engagement : Engagement := {}
  error : Option String := none
  status : String := "pending"
deriving DecidableEq, Repr

/-- The analytics sub-document (SocialMediaPost.js lines 116-121); the two
    rates are modelled as exact rationals. -/
structure Analytics where
  totalReach : Nat := 0
  totalEngagement : Nat := 0
  engagementRate : Rat := 0
  clickThroughRate : Rat := 0
deriving DecidableEq, Repr

/-- One media item (SocialMediaPost.js lines 19-32); the source field named
    type is rendered mediaType. -/
structure MediaItem where
  mediaType : String
  url : String
deriving DecidableEq, Repr

/-- One link sub-document (SocialMediaPost.js lines 42-50). -/
structure Link where
  url : String
deriving DecidableEq, Repr

/-- A SocialMediaPost document. -/
structure Post where
  id : Nat
  title : String := ""
  content : String := ""
  platforms : List String := []
  media : List MediaItem := []
  hashtags : List String := []
  mentions : List String := []
  links : List Link := []
  scheduledDate : Option Int := none
  publishedDate : Option Int := none
  status : String := "draft"
  postResults : List PostResult := []
  createdBy : Nat := 0
  analytics : Analytics := {}
deriving DecidableEq, Repr

/-- The declared enum of the Post status field
    (SocialMediaPost.js lines 61-65). It has five values; the string the
    Job Processor writes while working, publishing, is not among them. -/
def statusEnum : List String :=
  ["draft", "scheduled", "published", "failed", "cancelled"]

/-- The six registered platform names: both the schema enum
    (SocialMediaPost.js lines 14-18) and the keys of the service table
    built in the SocialMediaService constructor
    (socialMediaService.js lines 22-32). -/
def platformEnum : List String :=
  ["facebook", "twitter", "instagram", "linkedin", "tiktok", "youtube"]

/-- Sum of views over postResults (the totalReach computation of the
    pre-save middleware, SocialMediaPost.js lines 158-160). -/
def sumViews (rs : List PostResult) : Nat :=
  rs.foldl (fun t r => t + r.engagement.views) 0

/-- Sum of likes + comments + shares over postResults (the virtual
    totalEngagement, SocialMediaPost.js lines 137-142). -/
def sumEngagement (rs : List PostResult) : Nat :=
  rs.foldl (fun t r => t + r.engagement.likes + r.engagement.comments + r.engagement.shares) 0

/-- Sum of clicks over postResults (SocialMediaPost.js lines 171-173). -/
def sumClicks (rs : List PostResult) : Nat :=
  rs.foldl (fun t r => t + r.engagement.clicks) 0

/-- The pre-save middleware (SocialMediaPost.js lines 156-180): recompute
    totalReach and totalEngagement from postResults; the two rates are
    overwritten only when the recomputed reach is positive, otherwise they
    keep their prior value. -/
def preSaveAnalytics (prev : Analytics) (rs : List PostResult) : Analytics :=
  let reach := sumViews rs
  { totalReach := reach
    totalEngagement := sumEngagement rs
    engagementRate :=
      if 0 < reach then (sumEngagement rs * 100 : Rat) / reach else prev.engagementRate
    clickThroughRate :=
      if 0 < reach then (sumClicks rs * 100 : Rat) / reach else prev.clickThroughRate }

/-- A document save (Model.create or doc.save): mongoose runs the pre-save
    middleware and persists the document. -/
def saveDoc (p : Post) : Post :=
  { p with analytics := preSaveAnalytics p.analytics p.postResults }

/-- The payload handed to a platform service
    (the postData argument of postToPlatform). -/
structure PostData where
  content : String := ""
  media : List MediaItem := []
  hashtags : List String := []
  mentions : List String := []
  link : Option String := none
deriving DecidableEq, Repr

/-- A resolving platform-service call (facebookService and the five others
    return postId, url, initial engagement; never metadata). -/
structure ServiceOk where
  postId : String
  url : String
  engagement : Option Engagement := none
  metadata : Option (List (String × String)) := none
deriving DecidableEq, Repr

/-- A rejecting platform-service call: the thrown Error has a message and
    possibly a code property. -/
structure ServiceErr where
  message : String
  code : Option String := none
deriving DecidableEq, Repr

/-- Behaviour of the per-platform services (network-dependent, so a
    parameter of the model): a service call either resolves or rejects. -/
def SocialEnv : Type := String → PostData → Except ServiceErr ServiceOk

/-- The object returned by SocialMediaService.postToPlatform
    (socialMediaService.js lines 46-53 on success, 56-61 on failure). -/
structure PlatformPostOutcome where
  success : Bool
  platform : String
  postId : Option String := none
  url : Option String := none
  engagement : Option Engagement := none
  metadata : Option (List (String × String)) := none
  error : Option String := none
  code : Option String := none
deriving DecidableEq, Repr

/-- The try-block of postToPlatform (socialMediaService.js lines 38-53):
    throw when the platform is not in the service table, otherwise await
    the service and wrap a resolving call into the success object
    (engagement and metadata default to the empty object). -/
def postToPlatformTry (env : SocialEnv) (platform : String) (pd : PostData) :
    Except ServiceErr PlatformPostOutcome :=
  if platform ∈ platformEnum then
    match env platform pd with
    | .ok r =>
        .ok { success := true, platform := platform, postId := some r.postId,
              url := some r.url, engagement := some (r.engagement.getD {}),
              metadata := some (r.metadata.getD []) }
    | .error e => .error e
  else
    .error { message := "Platform " ++ platform ++ " is not supported" }

/-- SocialMediaService.postToPlatform (socialMediaService.js lines 37-63):
    the catch-block converts every thrown error into a failure object, so
    the method itself always returns an outcome and never throws. -/
def postToPlatform (env : SocialEnv) (platform : String) (pd : PostData) :
    PlatformPostOutcome :=
  match postToPlatformTry env platform pd with
  | .ok o => o
  | .error e =>
      { success := false, platform := platform, error := some e.message,
        code := some (e.code.getD "UNKNOWN_ERROR") }

/-- In-memory state of the SchedulerService singleton together with the
    SocialMediaPost collection: the store, the scheduledJobs map (modelled
    by its key list; Map keys are unique), and the isInitialized flag. -/
structure SchedulerState where
  store : List Post := []
  scheduledJobs : List Nat := []
  isInitialized : Bool := false
deriving DecidableEq, Repr

/-- Model.findById: first document with this id. -/
def storeFind (store : List Post) (id : Nat) : Option Post :=
  store.find? fun p => p.id == id

/-- Model.findByIdAndUpdate: apply the field updates to the matching
    document. Mongoose update queries do NOT run the pre-save document
    middleware, so no analytics recomputation happens here. -/
def findByIdAndUpdate (store : List Post) (id : Nat) (f : Post → Post) : List Post :=
  store.map fun p => if p.id == id then f p else p

/-- Map.set on the scheduledJobs key list: insert the id if absent. -/
def cacheInsert (id : Nat) (cache : List Nat) : List Nat :=
  if id ∈ cache then cache else id :: cache

/-- The postResults entry pushed by the Job Processor for one platform
    (schedulerService.js lines 165-172). It copies postId, url and
    engagement from the returned outcome object and is ALWAYS given status
    success: postToPlatform returns its failure object instead of throwing,
    so the catch branch of the loop (lines 175-184), which would have
    recorded a failed entry with the error message, never runs. -/
def pushedResult (now : Int) (platform : String) (o : PlatformPostOutcome) : PostResult :=
  { platform := platform
    postId := o.postId
    url := o.url
    publishedAt := some now
    engagement := o.engagement.getD {}
    error := none
    status := "success" }

/-- The payload the Job Processor passes to postToPlatform
    (schedulerService.js lines 157-163). -/
def jobPostData (p : Post) : PostData :=
  { content := p.content, media := p.media, hashtags := p.hashtags,
    mentions := p.mentions, link := p.links.head?.map Link.url }

/-- The final write of the Job Processor (schedulerService.js lines
    188-192): status is set to published unconditionally, publishedDate is
    stamped, postResults replaced. Issued through findByIdAndUpdate, so the
    pre-save middleware does not run. -/
def persistResults (now : Int) (rs : List PostResult) (p : Post) : Post :=
  { p with status := "published", publishedDate := some now, postResults := rs }

/-- SchedulerService.processScheduledPost (schedulerService.js lines
    144-198): persist status publishing, post to each target platform in
    order collecting the pushed entries, persist the final record, drop the
    id from the scheduledJobs map. -/
def processScheduledPost (env : SocialEnv) (now : Int) (st : SchedulerState)
    (post : Post) : SchedulerState :=
  let store1 := findByIdAndUpdate st.store post.id fun p => { p with status := "publishing" }
  let results := post.platforms.map fun pl =>
    pushedResult now pl (postToPlatform env pl (jobPostData post))
  let store2 := findByIdAndUpdate store1 post.id (persistResults now results)
  { st with store := store2, scheduledJobs := st.scheduledJobs.erase post.id }

/-- The observable persistence and publish events of one
    processScheduledPost run. -/
inductive JobEvent
  | persistPublishing (id : Nat)
  | publishAttempt (platform : String)
  | persistFinal (id : Nat) (status : String)
  | cacheRemove (id : Nat)
deriving DecidableEq, Repr

/-- The event order of processScheduledPost: the publishing status write is
    issued first, then one publish attempt per target platform in order,
    then the final write and the cache removal. -/
def processEvents (post : Post) : List JobEvent :=
  JobEvent.persistPublishing post.id ::
    (post.platforms.map JobEvent.publishAttempt ++
      [JobEvent.persistFinal post.id "published", JobEvent.cacheRemove post.id])

/-- The query of one scheduler tick (schedulerService.js lines 107-110):
    documents with status scheduled and scheduledDate at most now (a
    missing scheduledDate never matches the range condition). -/
def dueJobs (store : List Post) (now : Int) : List Post :=
  store.filter fun p =>
    p.status == "scheduled" &&
      (match p.scheduledDate with
        | some d => decide (d ≤ now)
        | none => false)

/-- SchedulerService.processScheduledPosts (schedulerService.js lines
    102-139): the due jobs are read once from the store, then each is
    processed in order against the evolving state. -/
def processScheduledPosts (env : SocialEnv) (now : Int) (st : SchedulerState) :
    SchedulerState :=
  (dueJobs st.store now).foldl (fun s p => processScheduledPost env now s p) st

/-- SchedulerService.pauseScheduler (schedulerService.js lines 348-351):
    the body only writes a log line; the class has no paused flag and the
    cron task keeps running, so the state is untouched. -/
def pauseScheduler (st : SchedulerState) : SchedulerState := st

/-- SchedulerService.resumeScheduler (schedulerService.js lines 356-359):
    likewise only a log line. -/
def resumeScheduler (st : SchedulerState) : SchedulerState := st

/-- The schema validation Model.create runs (required fields / maxlength /
    enum constraints of SocialMediaPost.js relevant to this core). -/
def mongooseValidate (p : Post) : Bool :=
  p.title != "" && decide (p.title.length ≤ 200) &&
  p.content != "" && decide (p.content.length ≤ 5000) &&
  p.platforms.all (fun s => platformEnum.contains s) &&
  statusEnum.contains p.status &&
  p.postResults.all (fun r => platformEnum.contains r.platform &&
    ["success", "failed", "pending"].contains r.status)

/-- SchedulerService.schedulePost (schedulerService.js lines 203-220):
    Model.create with status forced to scheduled (create validates the
    document and runs the pre-save middleware; a validation failure rejects
    and the service re-throws), then the new id is put into the
    scheduledJobs map. -/
def schedulePost (st : SchedulerState) (p : Post) : SchedulerState × Except String Post :=
  let candidate := { p with status := "scheduled" }
  if mongooseValidate candidate then
    let created := saveDoc candidate
    ({ st with store := st.store ++ [created],
               scheduledJobs := cacheInsert created.id st.scheduledJobs }, .ok created)
  else
    (st, .error "ValidationError")

/-- SchedulerService.cancelScheduledPost (schedulerService.js lines
    225-244): findByIdAndUpdate sets status cancelled on whatever document
    has this id — the current status is never inspected — and returns the
    updated document; when one was found its id is removed from the
    scheduledJobs map. -/
def cancelScheduledPost (st : SchedulerState) (postId : Nat) :
    SchedulerState × Option Post :=
  match storeFind st.store postId with
  | none => (st, none)
  | some p =>
      ({ st with
           store := findByIdAndUpdate st.store postId fun q => { q with status := "cancelled" },
           scheduledJobs := st.scheduledJobs.erase postId },
       some { p with status := "cancelled" })

/-- The object returned by SchedulerService.getStatus
    (schedulerService.js lines 364-370). -/
structure SchedulerStatus where
  isInitialized : Bool
  scheduledJobsCount : Nat
  timestamp : Int
deriving DecidableEq, Repr

/-- SchedulerService.getStatus: the timestamp field records the time of
    the call (new Date().toISOString()). -/
def getStatus (st : SchedulerState) (now : Int) : SchedulerStatus :=
  { isInitialized := st.isInitialized
    scheduledJobsCount := st.scheduledJobs.length
    timestamp := now }

/-- The object returned by SchedulerService.getSchedulerStats
    (schedulerService.js lines 294-317). -/
structure SchedulerStats where
  scheduled : Nat
  published : Nat
  failed : Nat
  cancelled : Nat
  total : Nat
  upcoming : Nat
deriving DecidableEq, Repr

/-- Count of the documents of one user in one status (the aggregation
    group of schedulerService.js lines 284-292). -/
def countStatus (store : List Post) (userId : Nat) (s : String) : Nat :=
  (store.filter fun p => p.createdBy == userId && p.status == s).length

/-- SchedulerService.getSchedulerStats (schedulerService.js lines 282-324):
    per-status counts of the user documents, total over every status, and
    the count of scheduled documents with scheduledDate up to seven days
    from now (the query has no lower bound on the date). -/
def getSchedulerStats (store : List Post) (userId : Nat) (now : Int) : SchedulerStats :=
  { scheduled := countStatus store userId "scheduled"
    published := countStatus store userId "published"
    failed := countStatus store userId "failed"
    cancelled := countStatus store userId "cancelled"
    total := (store.filter fun p => p.createdBy == userId).length
    upcoming := (store.filter fun p =>
        p.createdBy == userId && p.status == "scheduled" &&
          (match p.scheduledDate with
            | some d => decide (d ≤ now + 7 * 86400000)
            | none => false)).length }

/-- Body of a create-scheduled-job request (routes/scheduler.js). -/
structure JobRequest where
  title : String := ""
  content : String := ""
  platforms : List String := []
  scheduledDate : Int := 0
  media : List MediaItem := []
  hashtags : List String := []
  mentions : List String := []
deriving DecidableEq, Repr

/-- scheduledJobValidation (routes/scheduler.js lines 22-55): the
    validation messages produced for a request arriving at time now
    (scheduledDate is modelled as an already-parsed instant; the ISO8601
    format check is outside the model). -/
def scheduledJobValidation (now : Int) (r : JobRequest) : List String :=
  (if r.content = "" then ["Post content is required"] else []) ++
  (if 5000 < r.content.length then ["Content cannot exceed 5000 characters"] else []) ++
  (if r.platforms.length < 1 then ["At least one platform is required"] else []) ++
  (if r.platforms.all (fun s => platformEnum.contains s) then []
   else ["Invalid platform"]) ++
  (if r.scheduledDate ≤ now then ["Scheduled date must be in the future"] else [])

/-- The document createScheduledJob builds from the request body
    (schedulerController.js lines 89-94 spread the body and add createdBy;
    schedulePost then forces status scheduled). -/
def jobToPost (newId userId : Nat) (r : JobRequest) : Post :=
  { id := newId, title := r.title, content := r.content,
    platforms := r.platforms, media := r.media, hashtags := r.hashtags,
    mentions := r.mentions, scheduledDate := some r.scheduledDate,
    createdBy := userId }

/-- createScheduledJob (schedulerController.js lines 79-109): reject with
    the validation errors when scheduledJobValidation is non-empty,
    otherwise call schedulePost. -/
def createScheduledJob (now : Int) (st : SchedulerState) (newId userId : Nat)
    (r : JobRequest) : SchedulerState × Except (List String) Post :=
  let errs := scheduledJobValidation now r
  if errs = [] then
    let res := schedulePost st (jobToPost newId userId r)
    (res.1, res.2.mapError fun e => [e])
  else
    (st, .error errs)

/-! Concrete environments and fixtures used by witnesses and
    counterexamples. -/

/-- An environment in which every platform service rejects. -/
def envAllFail : SocialEnv := fun _ _ =>
  .error { message := "Facebook credentials not configured" }

/-- An environment in which the twitter service resolves and every other
    service rejects. -/
def envFbFailTwOk : SocialEnv := fun pl _ =>
  if pl = "twitter" then
    .ok { postId := "tw-1", url := "https://twitter.com/i/status/tw-1" }
  else
    .error { message := "Facebook API error: Invalid OAuth access token" }

/-- An environment in which every platform service resolves. -/
def envAllOk : SocialEnv := fun pl _ =>
  .ok { postId := pl ++ "-1", url := "https://example.com/" ++ pl }

/-- A scheduled post targeting facebook only. -/
def post1 : Post :=
  { id := 1, title := "t", content := "hello", platforms := ["facebook"],
    scheduledDate := some 1000, status := "scheduled", createdBy := 7 }

def st1 : SchedulerState :=
  { store := [post1], scheduledJobs := [1], isInitialized := true }

/-- A scheduled post targeting facebook and twitter. -/
def post2 : Post :=
  { id := 2, title := "t", content := "hi", platforms := ["facebook", "twitter"],
    scheduledDate := some 1000, status := "scheduled", createdBy := 7 }

def st2 : SchedulerState :=
  { store := [post2], scheduledJobs := [2], isInitialized := true }

/-- Claim C1 (code bug), evaluated at the failing input: a due job with the
    single target facebook whose adapter publish fails. The adapter outcome
    is a failure, yet the Job Processor persists terminal status published
    (schedulerService.js lines 188-192 set published unconditionally),
    where the claim — and the dead failure-handling code at lines 124-133
    and 175-184 — require failed when every platform fails. -/
theorem C1_allFail_persists_published :
    (postToPlatform envAllFail "facebook" (jobPostData post1)).success = false ∧
    (storeFind (processScheduledPost envAllFail 2000 st1 post1).store 1).map Post.status
      = some "published" := by
  constructor
  · rfl
  · rfl

/-- Claim C2 (code bug), evaluated at the failing input: a due job
    targeting facebook (whose adapter fails) and twitter (whose adapter
    succeeds). Both platforms are attempted and nothing escapes as an
    exception, but the facebook entry is recorded with status success and
    no error message — because postToPlatform returns its failure object
    instead of throwing, the catch branch of schedulerService.js lines
    175-184 that would record a failed entry never runs. -/
theorem C2_failed_platform_recorded_success :
    (postToPlatform envFbFailTwOk "facebook" (jobPostData post2)).success = false ∧
    (postToPlatform envFbFailTwOk "twitter" (jobPostData post2)).success = true ∧
    ((storeFind (processScheduledPost envFbFailTwOk 2000 st2 post2).store 2).map
        fun p => p.postResults.map fun r => (r.platform, r.status, r.error))
      = some [("facebook", "success", none), ("twitter", "success", none)] := by
  refine ⟨rfl, rfl, rfl⟩

/-- Inserting an id into the scheduledJobs key list makes it a member. -/
theorem mem_cacheInsert_self (id : Nat) (cache : List Nat) : id ∈ cacheInsert id cache := by
  unfold cacheInsert
  by_cases h : id ∈ cache
  · simpa [if_pos h] using h
  · simp [if_neg h]

/-- findByIdAndUpdate with an id-preserving update is seen by storeFind as
    mapping the found document. -/
theorem storeFind_findByIdAndUpdate (store : List Post) (id : Nat) (f : Post → Post)
    (hf : ∀ p, (f p).id = p.id) :
    storeFind (findByIdAndUpdate store id f) id = (storeFind store id).map f := by
  induction store with
  | nil => rfl
  | cons q qs ih =>
      simp only [storeFind, findByIdAndUpdate, List.map_cons] at ih ⊢
      by_cases hq : (q.id == id) = true
      · have hfq : ((f q).id == id) = true := by rw [hf q]; exact hq
        rw [if_pos hq,
            @List.find?_cons_of_pos _ (fun p => p.id == id) (f q) _ hfq,
            @List.find?_cons_of_pos _ (fun p => p.id == id) q _ hq]
        rfl
      · rw [if_neg hq,
            @List.find?_cons_of_neg _ (fun p => p.id == id) q _ hq,
            @List.find?_cons_of_neg _ (fun p => p.id == id) q _ hq]
        exact ih

/-- A post currently in publishing state, and a state holding it. -/
def postPub : Post :=
  { id := 3, title := "t", content := "c", platforms := ["facebook"],
    status := "publishing", createdBy := 7 }

def stPub : SchedulerState :=
  { store := [postPub], scheduledJobs := [], isInitialized := true }

/-- Counterexample to claim C3: cancelling a post whose status is
    publishing does not return a too-late error and does not leave the
    record unchanged — the stored status is mutated to cancelled and the
    updated record is returned. -/
theorem C3_counterexample :
    (cancelScheduledPost stPub 3).2 = some { postPub with status := "cancelled" } ∧
    (storeFind (cancelScheduledPost stPub 3).1.store 3).map Post.status
      = some "cancelled" := by
  refine ⟨rfl, rfl⟩

/-- Claim C3 amended: cancellation is status-blind. For an id present in
    the store — whatever the current status: scheduled, publishing or any
    later state — cancel sets the stored status to cancelled, removes the
    id from the Job Cache and returns the updated record; an id absent
    from the store yields the not-found result and leaves the state
    unchanged. No too-late error exists. (The Nodup hypothesis says the
    key list models a Map key set.) -/
theorem C3_amended_cancel_status_blind (st : SchedulerState) (postId : Nat)
    (hnd : st.scheduledJobs.Nodup) :
    (storeFind st.store postId = none → cancelScheduledPost st postId = (st, none)) ∧
    (∀ p, storeFind st.store postId = some p →
      (cancelScheduledPost st postId).2 = some { p with status := "cancelled" } ∧
      postId ∉ (cancelScheduledPost st postId).1.scheduledJobs ∧
      (storeFind (cancelScheduledPost st postId).1.store postId).map Post.status
        = some "cancelled") := by
  constructor
  · intro hnone
    unfold cancelScheduledPost
    rw [hnone]
  · intro p hp
    unfold cancelScheduledPost
    rw [hp]
    refine ⟨rfl, ?_, ?_⟩
    · exact hnd.not_mem_erase
    · show (storeFind (findByIdAndUpdate st.store postId fun q =>
          { q with status := "cancelled" }) postId).map Post.status = some "cancelled"
      rw [storeFind_findByIdAndUpdate st.store postId
            (fun q => { q with status := "cancelled" }) (fun q => rfl), hp]
      rfl

/-- Witness for the amended C3 theorem at a concrete state: the scheduled
    post of st1 is cancelled, returned as cancelled, and dropped from the
    cache. -/
theorem C3_amended_witness :
    (cancelScheduledPost st1 1).2 = some { post1 with status := "cancelled" } ∧
    1 ∉ (cancelScheduledPost st1 1).1.scheduledJobs := by
  have h := (C3_amended_cancel_status_blind st1 1 (by decide)).2 post1 rfl
  exact ⟨h.1, h.2.1⟩

/-- A due scheduled post and a state holding it. -/
def post5 : Post :=
  { id := 5, title := "t", content := "c", platforms := ["facebook"],
    scheduledDate := some 500, status := "scheduled", createdBy := 7 }

def st5 : SchedulerState :=
  { store := [post5], scheduledJobs := [5], isInitialized := true }

/-- Claim C5 (code bug): pauseScheduler gates nothing. Its body is only a
    log line — the class has no paused flag — so it is the identity on the
    scheduler state; processing on any tick after a pause equals processing
    without the pause, and at a concrete state with a due job the first
    tick after pauseScheduler still dispatches it (the stored status moves
    from scheduled to published), where the claim requires no dispatch
    until resume. -/
theorem C5_pause_does_not_gate :
    (∀ env now st, processScheduledPosts env now (pauseScheduler st)
      = processScheduledPosts env now st) ∧
    (storeFind st5.store 5).map Post.status = some "scheduled" ∧
    (storeFind (processScheduledPosts envAllOk 2000 (pauseScheduler st5)).store 5).map
        Post.status = some "published" := by
  exact ⟨fun env now st => rfl, rfl, rfl⟩

/-- Counterexample to claim C6: publishing is not a legal value of the
    declared Post status enum (its five values are draft, scheduled,
    published, failed and cancelled). -/
theorem C6_counterexample : "publishing" ∉ statusEnum := by decide

/-- Claim C6 amended: for every job the Job Processor takes on, the write
    of status publishing is the first event of the run — every publish
    attempt comes strictly later — and a store interrupted after that
    first write shows the job as publishing, never as scheduled; but the
    persisted value publishing is NOT a legal value of the schema status
    enum (the findByIdAndUpdate write bypasses enum validation). -/
theorem C6_amended_publishing_persisted_first (post : Post) :
    (processEvents post).head? = some (JobEvent.persistPublishing post.id) ∧
    (∀ i pl, (processEvents post)[i]? = some (JobEvent.publishAttempt pl) → 0 < i) ∧
    (∀ store p0, storeFind store post.id = some p0 →
      storeFind (findByIdAndUpdate store post.id fun q => { q with status := "publishing" })
          post.id = some { p0 with status := "publishing" }) ∧
    "publishing" ∉ statusEnum := by
  refine ⟨rfl, ?_, ?_, by decide⟩
  · intro i pl hi
    cases i with
    | zero => simp [processEvents] at hi
    | succ n => exact Nat.succ_pos n
  · intro store p0 h0
    rw [storeFind_findByIdAndUpdate store post.id
          (fun q => { q with status := "publishing" }) (fun q => rfl), h0]
    rfl

/-- Witness for the amended C6 theorem at the concrete facebook/twitter
    job: the publishing write is the first event, an attempt sits at a
    positive index, and the interrupted store shows publishing. -/
theorem C6_amended_witness :
    (processEvents post2).head? = some (JobEvent.persistPublishing 2) ∧
    (0 : Nat) < 1 ∧
    storeFind (findByIdAndUpdate st2.store 2 fun q => { q with status := "publishing" }) 2
      = some { post2 with status := "publishing" } := by
  have h := C6_amended_publishing_persisted_first post2
  exact ⟨h.1, h.2.1 1 "facebook" rfl, h.2.2.1 st2.store post2 rfl⟩

/-- Counterexample to claim C9: two getStatus calls on the same scheduler
    state with no intervening mutation return different results, because
    the timestamp field records the time of each call. -/
theorem C9_counterexample : getStatus st1 1000 ≠ getStatus st1 1001 := by decide

/-- Claim C9 amended: getStatus and getSchedulerStats are pure functions of
    the scheduler state, the user and the call time. Two getStatus calls
    with no intervening mutation agree on every field except timestamp
    (which records the call time), and two getSchedulerStats calls with no
    intervening mutation agree on every field except possibly upcoming
    (whose seven-day window depends on the call time); calls at the same
    instant return identical results. -/
theorem C9_amended_idempotent_up_to_time (st : SchedulerState) (store : List Post)
    (userId : Nat) (t1 t2 : Int) :
    (getStatus st t1).isInitialized = (getStatus st t2).isInitialized ∧
    (getStatus st t1).scheduledJobsCount = (getStatus st t2).scheduledJobsCount ∧
    (getStatus st t1).timestamp = t1 ∧
    (getSchedulerStats store userId t1).scheduled
      = (getSchedulerStats store userId t2).scheduled ∧
    (getSchedulerStats store userId t1).published
      = (getSchedulerStats store userId t2).published ∧
    (getSchedulerStats store userId t1).failed
      = (getSchedulerStats store userId t2).failed ∧
    (getSchedulerStats store userId t1).cancelled
      = (getSchedulerStats store userId t2).cancelled ∧
    (getSchedulerStats store userId t1).total
      = (getSchedulerStats store userId t2).total := by
  exact ⟨rfl, rfl, rfl, rfl, rfl, rfl, rfl, rfl⟩

/-- A success entry carrying five views (a previously saved result). -/
def resultViews5 : PostResult :=
  { platform := "facebook", engagement := { views := 5 }, status := "success" }

/-- A scheduled post carrying a prior postResults entry with five views and
    the matching saved aggregates, i.e. a document as the save path would
    have stored it. -/
def postRetry : Post :=
  { id := 4, title := "t", content := "c", platforms := ["facebook"],
    scheduledDate := some 1000, status := "scheduled", createdBy := 7,
    postResults := [resultViews5],
    analytics := { totalReach := 5 } }

def stRetry : SchedulerState :=
  { store := [postRetry], scheduledJobs := [4], isInitialized := true }

/-- Counterexample to claim C8: start from a saved document whose
    aggregates match its postResults (five views, totalReach 5).
    Processing the job replaces postResults through findByIdAndUpdate,
    which does not run the pre-save middleware: the new postResults carry
    zero views, yet the stored totalReach stays 5 — so after this mutation
    of postResults the stored aggregates are not the recomputation from
    the current postResults (saving the document again would store 0), and
    no fixed function of postResults alone can describe them. -/
theorem C8_counterexample :
    postRetry.analytics.totalReach = sumViews postRetry.postResults ∧
    postRetry.analytics.totalEngagement = sumEngagement postRetry.postResults ∧
    ((storeFind (processScheduledPost envAllOk 2000 stRetry postRetry).store 4).map
        fun p => (p.analytics.totalReach, sumViews p.postResults,
                  (saveDoc p).analytics.totalReach))
      = some (5, 0, 0) := by
  refine ⟨rfl, rfl, rfl⟩

/-- Claim C8 amended: the aggregates are recomputed from postResults only
    on the document save path — saveDoc stores totalReach as the sum of
    views and totalEngagement as the sum of likes, comments and shares,
    and overwrites the two rates (engagementRate and clickThroughRate)
    exactly when the recomputed reach is positive (otherwise each keeps
    its prior value) — while the final write of the Job Processor (a
    findByIdAndUpdate) bypasses the middleware and leaves all four stored
    aggregates unchanged, so after it they reflect the previous
    postResults, not the current ones. -/
theorem C8_amended_recompute_only_on_save (p : Post) (now : Int) (rs : List PostResult) :
    (saveDoc p).analytics.totalReach = sumViews p.postResults ∧
    (saveDoc p).analytics.totalEngagement = sumEngagement p.postResults ∧
    (0 < sumViews p.postResults →
      (saveDoc p).analytics.engagementRate
        = (sumEngagement p.postResults * 100 : Rat) / sumViews p.postResults) ∧
    (0 < sumViews p.postResults →
      (saveDoc p).analytics.clickThroughRate
        = (sumClicks p.postResults * 100 : Rat) / sumViews p.postResults) ∧
    (sumViews p.postResults = 0 →
      (saveDoc p).analytics.engagementRate = p.analytics.engagementRate) ∧
    (sumViews p.postResults = 0 →
      (saveDoc p).analytics.clickThroughRate = p.analytics.clickThroughRate) ∧
    (persistResults now rs p).analytics = p.analytics ∧
    (persistResults now rs p).postResults = rs := by
  refine ⟨rfl, rfl, ?_, ?_, ?_, ?_, rfl, rfl⟩
  · intro h
    simp only [saveDoc, preSaveAnalytics, if_pos h]
  · intro h
    simp only [saveDoc, preSaveAnalytics, if_pos h]
  · intro h
    simp [saveDoc, preSaveAnalytics, h]
  · intro h
    simp [saveDoc, preSaveAnalytics, h]

/-- Witness for the amended C8 theorem at concrete documents: on the saved
    document with five views the positive-reach hypotheses are discharged
    and both saved rates are the recomputed quotients; on the post with no
    results the zero-reach hypotheses are discharged and both rates keep
    their prior values. -/
theorem C8_amended_witness :
    0 < sumViews postRetry.postResults ∧
    ((saveDoc postRetry).analytics.engagementRate
        = (sumEngagement postRetry.postResults * 100 : Rat)
            / sumViews postRetry.postResults ∧
      (saveDoc postRetry).analytics.clickThroughRate
        = (sumClicks postRetry.postResults * 100 : Rat)
            / sumViews postRetry.postResults) ∧
    sumViews post1.postResults = 0 ∧
    ((saveDoc post1).analytics.engagementRate = post1.analytics.engagementRate ∧
      (saveDoc post1).analytics.clickThroughRate = post1.analytics.clickThroughRate) := by
  exact ⟨by decide,
    ⟨(C8_amended_recompute_only_on_save postRetry 2000 []).2.2.1 (by decide),
     (C8_amended_recompute_only_on_save postRetry 2000 []).2.2.2.1 (by decide)⟩,
    by decide,
    ⟨(C8_amended_recompute_only_on_save post1 2000 []).2.2.2.2.1 (by decide),
     (C8_amended_recompute_only_on_save post1 2000 []).2.2.2.2.2.1 (by decide)⟩⟩

/-- Claim C4: a schedule request whose scheduledDate is not strictly in the
    future fails with the invalid-schedule-time validation error, one with
    an empty target set fails with the no-targets validation error, and
    every call that returns a created post returns it with status
    scheduled and with its id in the Job Cache. -/
theorem C4_schedulePost_validation (now : Int) (st : SchedulerState)
    (newId userId : Nat) (r : JobRequest) :
    (r.scheduledDate ≤ now →
      ∃ errs, (createScheduledJob now st newId userId r).2 = .error errs ∧
        "Scheduled date must be in the future" ∈ errs) ∧
    (r.platforms = [] →
      ∃ errs, (createScheduledJob now st newId userId r).2 = .error errs ∧
        "At least one platform is required" ∈ errs) ∧
    (∀ p, (createScheduledJob now st newId userId r).2 = .ok p →
      p.status = "scheduled" ∧
      p.id ∈ (createScheduledJob now st newId userId r).1.scheduledJobs) := by
  refine ⟨?_, ?_, ?_⟩
  · intro h
    have hmem : "Scheduled date must be in the future" ∈ scheduledJobValidation now r := by
      unfold scheduledJobValidation
      simp [h]
    have hne : scheduledJobValidation now r ≠ [] := List.ne_nil_of_mem hmem
    refine ⟨scheduledJobValidation now r, ?_, hmem⟩
    unfold createScheduledJob
    simp only [if_neg hne]
  · intro h
    have hmem : "At least one platform is required" ∈ scheduledJobValidation now r := by
      unfold scheduledJobValidation
      simp [h]
    have hne : scheduledJobValidation now r ≠ [] := List.ne_nil_of_mem hmem
    refine ⟨scheduledJobValidation now r, ?_, hmem⟩
    unfold createScheduledJob
    simp only [if_neg hne]
  · intro p hp
    by_cases hval : scheduledJobValidation now r = []
    · unfold createScheduledJob at hp ⊢
      simp only [if_pos hval] at hp ⊢
      unfold schedulePost at hp ⊢
      by_cases hmv :
          mongooseValidate { jobToPost newId userId r with status := "scheduled" } = true
      · simp only [if_pos hmv, Except.mapError] at hp ⊢
        injection hp with hp2
        subst hp2
        exact ⟨rfl, mem_cacheInsert_self _ _⟩
      · simp only [if_neg hmv, Except.mapError] at hp
        cases hp
    · unfold createScheduledJob at hp
      simp only [if_neg hval] at hp
      cases hp

/-- Request fixtures for the C4 witness. -/
def reqPast : JobRequest :=
  { title := "t", content := "c", platforms := ["facebook"], scheduledDate := 50 }

def reqNoTargets : JobRequest :=
  { title := "t", content := "c", platforms := [], scheduledDate := 500 }

def reqGood : JobRequest :=
  { title := "t", content := "c", platforms := ["facebook"], scheduledDate := 500 }

/-- The document a successful create of reqGood returns. -/
def createdGood : Post := saveDoc { jobToPost 9 7 reqGood with status := "scheduled" }

/-- Witness for the C4 theorem at time 100: a past date is rejected with
    the invalid-schedule-time message, an empty target set with the
    no-targets message, and the valid request yields a scheduled post
    whose id is in the Job Cache. -/
theorem C4_witness :
    (∃ errs, (createScheduledJob 100 {} 9 7 reqPast).2 = .error errs ∧
      "Scheduled date must be in the future" ∈ errs) ∧
    (∃ errs, (createScheduledJob 100 {} 9 7 reqNoTargets).2 = .error errs ∧
      "At least one platform is required" ∈ errs) ∧
    (createdGood.status = "scheduled" ∧
      createdGood.id ∈ (createScheduledJob 100 {} 9 7 reqGood).1.scheduledJobs) := by
  exact ⟨(C4_schedulePost_validation 100 {} 9 7 reqPast).1 (by decide),
         (C4_schedulePost_validation 100 {} 9 7 reqNoTargets).2.1 rfl,
         (C4_schedulePost_validation 100 {} 9 7 reqGood).2.2 createdGood rfl⟩

/-- Claim C7: the tick dispatches exactly the due-query result (the fold of
    the Job Processor over dueJobs), and every member of that query has
    status scheduled and a scheduledDate at most now — so no job with
    scheduledDate strictly greater than now, or with no scheduledDate at
    all, is ever dispatched. -/
theorem C7_tick_dispatches_only_due (env : SocialEnv) (now : Int) (st : SchedulerState)
    (p : Post) (hp : p ∈ dueJobs st.store now) :
    processScheduledPosts env now st
      = (dueJobs st.store now).foldl (fun s q => processScheduledPost env now s q) st ∧
    p.status = "scheduled" ∧ ∃ d, p.scheduledDate = some d ∧ d ≤ now := by
  refine ⟨rfl, ?_⟩
  unfold dueJobs at hp
  have h := List.of_mem_filter hp
  simp only [Bool.and_eq_true, beq_iff_eq] at h
  obtain ⟨h1, h2⟩ := h
  refine ⟨h1, ?_⟩
  cases hd : p.scheduledDate with
  | none => rw [hd] at h2; simp at h2
  | some d =>
      rw [hd] at h2
      simp only [decide_eq_true_eq] at h2
      exact ⟨d, rfl, h2⟩

/-- Witness for the C7 theorem: the scheduled post of st1 is due at time
    2000 and indeed scheduled with date 1000 at most 2000. -/
theorem C7_witness :
    post1 ∈ dueJobs st1.store 2000 ∧ post1.status = "scheduled" ∧
    ∃ d, post1.scheduledDate = some d ∧ d ≤ 2000 := by
  exact ⟨by decide, (C7_tick_dispatches_only_due envAllOk 2000 st1 post1 (by decide)).2⟩

